import Mathlib

/-!
Shallow embedding of the geometry and alignment engine of
react-native-windowkit (`src/utils/geometry.ts`), together with proofs
about its clamping, candidate-selection, snapping and hinting behaviour.

Numbers are modelled as rationals (`ℚ`): every arithmetic operation the
source performs on coordinates is +, -, min, max, abs and division by 2,
all exact on the inputs considered.  JavaScript `Number.POSITIVE_INFINITY`
(used only as the absent upper size bound) is modelled by `Option ℚ` with
`none` standing for +∞.
-/

set_option maxRecDepth 8000

namespace WindowKit

/-- Geometry-relevant fields of `WindowStyle` (`src/types/windows.ts`).
Colour/border fields are irrelevant to the geometry engine and omitted.
All four fields are optional in the source (`Partial<...>`). -/
structure WindowStyle where
  minWidth : Option ℚ
  minHeight : Option ℚ
  maxWidth : Option ℚ
  maxHeight : Option ℚ
deriving DecidableEq

/-- The `window.windowStyle ?? {}` fallback object. -/
def emptyWindowStyle : WindowStyle := ⟨none, none, none, none⟩

/-- `WindowData` (`src/types/windows.ts`): a window rectangle. -/
@[ext]
structure WindowData where
  id : String
  x : ℚ
  y : ℚ
  width : ℚ
  height : ℚ
  zIndex : ℚ
  windowStyle : Option WindowStyle
deriving DecidableEq

/-- `CanvasSize` (`src/types/geometry.ts`). An absent canvas is modelled
as `none` at use sites. -/
structure CanvasSize where
  width : ℚ
  height : ℚ
deriving DecidableEq

/-- `SnapEdge` (`src/types/geometry.ts`). -/
inductive SnapEdge where
  | left
  | right
  | top
  | bottom
  | centerX
  | centerY
deriving DecidableEq

/-- `ResizeDirection` (`src/types/windows.ts`). -/
inductive ResizeDirection where
  | n
  | s
  | e
  | w
  | ne
  | nw
  | se
  | sw
deriving DecidableEq

/-- `SnapCandidate` (`src/types/geometry.ts`). -/
structure SnapCandidate where
  activeId : String
  targetIds : List String
  edges : List SnapEdge
  window : WindowData
  distance : ℚ
deriving DecidableEq

/-- Orientation of a hint guide. -/
inductive Orientation where
  | vertical
  | horizontal
deriving DecidableEq

/-- `HintGuide` (`src/types/geometry.ts`). -/
structure HintGuide where
  activeId : String
  targetIds : List String
  orientation : Orientation
  position : ℚ
  start : ℚ
  stop : ℚ
  edge : SnapEdge
deriving DecidableEq

/-- `SnapConfig` (`src/types/config.ts`): `distance` and `overlap` are the
fields the geometry engine reads (`visualPreview` is rendering-only).
Both are required in the TypeScript type, so `mergeSnapConfig`'s `??`
fallbacks never fire on a type-correct config and are not modelled. -/
structure SnapConfig where
  distance : ℚ
  overlap : ℚ
deriving DecidableEq

/-- `SNAP_BEHAVIOR_DEFAULTS` (`src/constants/windows.ts`). -/
def defaultSnapConfig : SnapConfig := ⟨32, 64⟩

/-- Resolved hint configuration, as consumed by the hint resolvers
(output of `mergeHintConfig`): the guide-visibility threshold and the
(possibly absent) snap-commit threshold. -/
structure HintConfigR where
  distance : ℚ
  snapDistance : Option ℚ
deriving DecidableEq

/-- JavaScript `Math.min` on two rationals (kernel-reducible mirror of
`min`). -/
def qmin (a b : ℚ) : ℚ := if a ≤ b then a else b

/-- JavaScript `Math.max` on two rationals (kernel-reducible mirror of
`max`). -/
def qmax (a b : ℚ) : ℚ := if a ≤ b then b else a

/-- JavaScript `Math.abs` (kernel-reducible mirror of `|·|`). -/
def qabs (a : ℚ) : ℚ := if a < 0 then -a else a

theorem qmin_eq (a b : ℚ) : qmin a b = min a b := (min_def a b).symm

theorem qmax_eq (a b : ℚ) : qmax a b = max a b := by
  unfold qmax
  rcases le_total a b with h | h
  · rw [if_pos h, max_eq_right h]
  · by_cases h2 : a ≤ b
    · rw [if_pos h2, max_eq_right h2]
    · rw [if_neg h2, max_eq_left h]

theorem qabs_eq (a : ℚ) : qabs a = |a| := by
  unfold qabs
  rcases lt_or_le a 0 with h | h
  · rw [if_pos h, abs_of_neg h]
  · rw [if_neg (not_lt.mpr h), abs_of_nonneg h]

/-- `windowStyleFor` (`geometry.ts`): spread of `WINDOW_STYLE_DEFAULTS`
(minWidth 320, minHeight 240, no max bounds) under the window's own
style.  Captured fieldwise. -/
def resolveMinWidth (w : WindowData) : ℚ :=
  ((w.windowStyle.getD emptyWindowStyle).minWidth).getD 320

/-- `resolveMinHeight` (`geometry.ts`). -/
def resolveMinHeight (w : WindowData) : ℚ :=
  ((w.windowStyle.getD emptyWindowStyle).minHeight).getD 240

/-- `Math.min` where either operand may be +∞ (`none`). -/
def qInfMin : Option ℚ → Option ℚ → Option ℚ
  | some a, some b => some (qmin a b)
  | some a, none => some a
  | none, b => b

/-- `Math.min(x, bound)` where the bound may be +∞ (`none`). -/
def minWithCap (a : ℚ) : Option ℚ → ℚ
  | some m => qmin a m
  | none => a

/-- `resolveMaxWidth` (`geometry.ts`):
`Math.min(style.maxWidth ?? +inf, canvas ? canvas.width : +inf)`. -/
def resolveMaxWidth (w : WindowData) (canvas : Option CanvasSize) : Option ℚ :=
  qInfMin ((w.windowStyle.getD emptyWindowStyle).maxWidth)
    (canvas.map fun c => c.width)

/-- `resolveMaxHeight` (`geometry.ts`). -/
def resolveMaxHeight (w : WindowData) (canvas : Option CanvasSize) : Option ℚ :=
  qInfMin ((w.windowStyle.getD emptyWindowStyle).maxHeight)
    (canvas.map fun c => c.height)

/-- `clampWindowToBounds` (`geometry.ts`, lines 280-320), translated
let-for-let.  `maxX ?? window.x` is `Option.getD`; the final
`Math.max(width, 0)` floors sizes at 0. -/
def clampWindowToBounds (window : WindowData) (canvas : Option CanvasSize) :
    WindowData :=
  let minWidth := resolveMinWidth window
  let minHeight := resolveMinHeight window
  let maxWidth := resolveMaxWidth window canvas
  let maxHeight := resolveMaxHeight window canvas
  let width := minWithCap (qmax minWidth window.width) maxWidth
  let height := minWithCap (qmax minHeight window.height) maxHeight
  let width := match canvas with
    | some c => qmin width c.width
    | none => width
  let height := match canvas with
    | some c => qmin height c.height
    | none => height
  let maxX : Option ℚ := canvas.map fun c => qmax (c.width - width) 0
  let maxY : Option ℚ := canvas.map fun c => qmax (c.height - height) 0
  let x := qmin (qmax 0 window.x) (maxX.getD window.x)
  let y := qmin (qmax 0 window.y) (maxY.getD window.y)
  let width := match canvas with
    | some c => minWithCap (qmin width (c.width - x)) maxWidth
    | none => width
  let height := match canvas with
    | some c => minWithCap (qmin height (c.height - y)) maxHeight
    | none => height
  { window with x := x, y := y, width := qmax width 0, height := qmax height 0 }

/-- The four edge coordinates of a window (`windowEdges` in
`geometry.ts`). -/
structure Edges where
  left : ℚ
  right : ℚ
  top : ℚ
  bottom : ℚ
deriving DecidableEq

/-- `windowEdges` (`geometry.ts`). -/
def windowEdges (w : WindowData) : Edges :=
  ⟨w.x, w.x + w.width, w.y, w.y + w.height⟩

/-- `computeOverlap` (`geometry.ts`). -/
def computeOverlap (startA endA startB endB : ℚ) : ℚ :=
  qmin endA endB - qmax startA startB

/-- `computeGap` (`geometry.ts`). -/
def computeGap (startA endA startB endB : ℚ) : ℚ :=
  qmax (startB - endA) (qmax (startA - endB) 0)

/-- `withinSnapThreshold` (`geometry.ts`):
`overlap > snapOverlap || gap <= snapDistance`. -/
def withinSnapThreshold (overlap gap snapOverlap snapDistance : ℚ) : Bool :=
  decide (snapOverlap < overlap) || decide (gap ≤ snapDistance)

/-- `Array.from(new Set(list))` in insertion order: deduplication keeping
the first occurrence of each element. -/
def jsDedup {α : Type} [DecidableEq α] : List α → List α
  | [] => []
  | a :: l => a :: (jsDedup l).filter (fun b => b ≠ a)

/-- The reducer of `pickBestSnap` (`geometry.ts`): keep the strictly
closer candidate, so the first-seen candidate wins ties. -/
def pickBestSnapStep (closest : Option SnapCandidate) (next : SnapCandidate) :
    Option SnapCandidate :=
  match closest with
  | none => some next
  | some c => if next.distance < c.distance then some next else some c

/-- `pickBestSnap` (`geometry.ts`): `candidates.reduce(..., null)`. -/
def pickBestSnap (candidates : List SnapCandidate) : Option SnapCandidate :=
  candidates.foldl pickBestSnapStep none

/-- `mergeTargets` (`geometry.ts`): merge the two axis winners; union
edges and targetIds (deduplicated, insertion order), sum distances. -/
def mergeTargets (horizontal vertical : Option SnapCandidate)
    (combineWindows : SnapCandidate → SnapCandidate → WindowData) :
    Option SnapCandidate :=
  match horizontal, vertical with
  | some h, some v =>
      some
        { activeId := h.activeId
          targetIds := jsDedup (h.targetIds ++ v.targetIds)
          edges := jsDedup (h.edges ++ v.edges)
          window := combineWindows h v
          distance := h.distance + v.distance }
  | _, _ => none

/-- `buildSnapCandidate` (`geometry.ts`): the candidate's rectangle is
clamped to the canvas on construction. -/
def buildSnapCandidate (active : WindowData) (edge : SnapEdge)
    (window : WindowData) (targetId : String) (distance : ℚ)
    (canvas : Option CanvasSize) : SnapCandidate :=
  { activeId := active.id
    targetIds := [targetId]
    edges := [edge]
    window := clampWindowToBounds window canvas
    distance := distance }

/-- `selectBestTarget` (`geometry.ts`): per-axis minima, merged when both
axes produced a winner (`combined ?? closestSingle`). -/
def selectBestTarget (horizontalCandidates verticalCandidates : List SnapCandidate)
    (combineWindows : SnapCandidate → SnapCandidate → WindowData)
    (canvas : Option CanvasSize) : Option SnapCandidate :=
  let closestHorizontal := pickBestSnap horizontalCandidates
  let closestVertical := pickBestSnap verticalCandidates
  let combined := mergeTargets closestHorizontal closestVertical
    (fun h v => clampWindowToBounds (combineWindows h v) canvas)
  let closestSingle := pickBestSnap (horizontalCandidates ++ verticalCandidates)
  match combined with
  | some c => some c
  | none => closestSingle

/-- Horizontal drag candidates contributed by one sibling, in the push
order of `computeDragSnapTarget`'s `verticallyAligned` block
(`geometry.ts`, lines 602-660). -/
def dragHorizontalFor (active : WindowData) (activeEdges : Edges)
    (other : WindowData) (snapDistance snapOverlap : ℚ)
    (canvas : Option CanvasSize) : List SnapCandidate :=
  let otherEdges := windowEdges other
  let verticalOverlap :=
    computeOverlap activeEdges.top activeEdges.bottom otherEdges.top otherEdges.bottom
  let verticalGap :=
    computeGap activeEdges.top activeEdges.bottom otherEdges.top otherEdges.bottom
  if withinSnapThreshold verticalOverlap verticalGap snapOverlap snapDistance then
    let distanceToRight := qabs (otherEdges.left - activeEdges.right)
    let distanceToSameRight := qabs (otherEdges.right - activeEdges.right)
    let distanceToLeft := qabs (activeEdges.left - otherEdges.right)
    let distanceToSameLeft := qabs (activeEdges.left - otherEdges.left)
    (if distanceToRight ≤ snapDistance then
      [buildSnapCandidate active SnapEdge.right
        { active with x := otherEdges.left - active.width } other.id
        distanceToRight canvas]
    else []) ++
    (if distanceToSameRight ≤ snapDistance then
      [buildSnapCandidate active SnapEdge.right
        { active with x := otherEdges.right - active.width } other.id
        distanceToSameRight canvas]
    else []) ++
    (if distanceToLeft ≤ snapDistance then
      [buildSnapCandidate active SnapEdge.left
        { active with x := otherEdges.right } other.id distanceToLeft canvas]
    else []) ++
    (if distanceToSameLeft ≤ snapDistance then
      [buildSnapCandidate active SnapEdge.left
        { active with x := otherEdges.left } other.id distanceToSameLeft canvas]
    else [])
  else []

/-- Vertical drag candidates contributed by one sibling, in the push
order of `computeDragSnapTarget`'s `horizontallyAligned` block
(`geometry.ts`, lines 662-720). -/
def dragVerticalFor (active : WindowData) (activeEdges : Edges)
    (other : WindowData) (snapDistance snapOverlap : ℚ)
    (canvas : Option CanvasSize) : List SnapCandidate :=
  let otherEdges := windowEdges other
  let horizontalOverlap :=
    computeOverlap activeEdges.left activeEdges.right otherEdges.left otherEdges.right
  let horizontalGap :=
    computeGap activeEdges.left activeEdges.right otherEdges.left otherEdges.right
  if withinSnapThreshold horizontalOverlap horizontalGap snapOverlap snapDistance then
    let distanceToBottom := qabs (activeEdges.top - otherEdges.bottom)
    let distanceToSameBottom := qabs (activeEdges.bottom - otherEdges.bottom)
    let distanceToTop := qabs (otherEdges.top - activeEdges.bottom)
    let distanceToSameTop := qabs (activeEdges.top - otherEdges.top)
    (if distanceToBottom ≤ snapDistance then
      [buildSnapCandidate active SnapEdge.top
        { active with y := otherEdges.bottom } other.id distanceToBottom canvas]
    else []) ++
    (if distanceToTop ≤ snapDistance then
      [buildSnapCandidate active SnapEdge.bottom
        { active with y := otherEdges.top - active.height } other.id
        distanceToTop canvas]
    else []) ++
    (if distanceToSameBottom ≤ snapDistance then
      [buildSnapCandidate active SnapEdge.bottom
        { active with y := otherEdges.bottom - active.height } other.id
        distanceToSameBottom canvas]
    else []) ++
    (if distanceToSameTop ≤ snapDistance then
      [buildSnapCandidate active SnapEdge.top
        { active with y := otherEdges.top } other.id distanceToSameTop canvas]
    else [])
  else []

/-- The sticky re-validation check of `computeDragSnapTarget`
(`geometry.ts`, lines 739-750): every sticky edge must still be within
`snapDistance` of the matching active edge.  The source's `every`
predicate is a disjunction over the four plain edges; `centerX`/`centerY`
match no disjunct and make the check fail. -/
def stickyStillValid (activeEdges : Edges) (sticky : SnapCandidate)
    (snapDistance : ℚ) : Bool :=
  let stickyEdges := windowEdges sticky.window
  sticky.edges.all fun edge =>
    match edge with
    | SnapEdge.left => decide (qabs (activeEdges.left - stickyEdges.left) ≤ snapDistance)
    | SnapEdge.right => decide (qabs (activeEdges.right - stickyEdges.right) ≤ snapDistance)
    | SnapEdge.top => decide (qabs (activeEdges.top - stickyEdges.top) ≤ snapDistance)
    | SnapEdge.bottom => decide (qabs (activeEdges.bottom - stickyEdges.bottom) ≤ snapDistance)
    | _ => false

/-- The combine function passed to `selectBestTarget` by both snap
resolvers: horizontal winner supplies x/width, vertical winner supplies
y/height. -/
def combineDragWindows (active : WindowData)
    (horizontal vertical : SnapCandidate) : WindowData :=
  { active with
      x := horizontal.window.x
      y := vertical.window.y
      width := horizontal.window.width
      height := vertical.window.height }

/-- The candidate-pipeline part of `computeDragSnapTarget`
(`geometry.ts`, lines 522-736): the mutable per-sibling accumulation of
the source's `forEach`/`push` becomes a `flatMap` of per-sibling
candidate lists in push order; self entries are skipped. -/
def freshDragCandidate (active : WindowData) (others : List WindowData)
    (canvas : Option CanvasSize) (config : SnapConfig) : Option SnapCandidate :=
  let snapDistance := config.distance
  let snapOverlap := config.overlap
  let activeEdges := windowEdges active
  let horizontalCandidates := others.flatMap fun other =>
    if other.id = active.id then []
    else dragHorizontalFor active activeEdges other snapDistance snapOverlap canvas
  let verticalCandidates := others.flatMap fun other =>
    if other.id = active.id then []
    else dragVerticalFor active activeEdges other snapDistance snapOverlap canvas
  selectBestTarget horizontalCandidates verticalCandidates
    (combineDragWindows active) canvas

/-- The sticky tail of `computeDragSnapTarget` (`geometry.ts`, lines
738-757): when no fresh candidate was found and a sticky target for this
active id is still within range, return it unchanged; otherwise return
the fresh result. -/
def applySticky (active : WindowData) (activeEdges : Edges)
    (snapDistance : ℚ) (candidate stickyTo : Option SnapCandidate) :
    Option SnapCandidate :=
  match candidate, stickyTo with
  | none, some sticky =>
      if sticky.activeId = active.id ∧
          stickyStillValid activeEdges sticky snapDistance then
        some sticky
      else none
  | candidate, _ => candidate

/-- `computeDragSnapTarget` (`geometry.ts`, lines 522-758). -/
def computeDragSnapTarget (active : WindowData) (others : List WindowData)
    (canvas : Option CanvasSize) (stickyTo : Option SnapCandidate)
    (config : SnapConfig) : Option SnapCandidate :=
  applySticky active (windowEdges active) config.distance
    (freshDragCandidate active others canvas config) stickyTo

/-- `movesTop` flag of the resize resolvers (`geometry.ts`). -/
def movesTop : ResizeDirection → Bool
  | ResizeDirection.n => true
  | ResizeDirection.ne => true
  | ResizeDirection.nw => true
  | _ => false

/-- `movesBottom` flag of the resize resolvers (`geometry.ts`). -/
def movesBottom : ResizeDirection → Bool
  | ResizeDirection.s => true
  | ResizeDirection.se => true
  | ResizeDirection.sw => true
  | _ => false

/-- `movesRight` flag of the resize resolvers (`geometry.ts`). -/
def movesRight : ResizeDirection → Bool
  | ResizeDirection.e => true
  | ResizeDirection.ne => true
  | ResizeDirection.se => true
  | _ => false

/-- `movesLeft` flag of the resize resolvers (`geometry.ts`). -/
def movesLeft : ResizeDirection → Bool
  | ResizeDirection.w => true
  | ResizeDirection.nw => true
  | ResizeDirection.sw => true
  | _ => false

/-- `addHorizontal`'s candidate construction in `computeResizeSnapTarget`
(`geometry.ts`): moving the right edge changes width only; moving the
left edge changes x and width inversely.  The rectangle is clamped. -/
def resizeHorizontalCandidate (active : WindowData) (activeEdges : Edges)
    (edge : SnapEdge) (targetEdge : ℚ) (distance : ℚ) (targetId : String)
    (canvas : Option CanvasSize) : SnapCandidate :=
  let nextWindow :=
    if edge = SnapEdge.right then
      clampWindowToBounds { active with width := targetEdge - active.x } canvas
    else
      clampWindowToBounds
        { active with x := targetEdge, width := activeEdges.right - targetEdge }
        canvas
  { activeId := active.id
    targetIds := [targetId]
    edges := [edge]
    window := nextWindow
    distance := distance }

/-- `addVertical`'s candidate construction in `computeResizeSnapTarget`
(`geometry.ts`). -/
def resizeVerticalCandidate (active : WindowData) (activeEdges : Edges)
    (edge : SnapEdge) (targetEdge : ℚ) (distance : ℚ) (targetId : String)
    (canvas : Option CanvasSize) : SnapCandidate :=
  let nextWindow :=
    if edge = SnapEdge.bottom then
      clampWindowToBounds { active with height := targetEdge - active.y } canvas
    else
      clampWindowToBounds
        { active with y := targetEdge, height := activeEdges.bottom - targetEdge }
        canvas
  { activeId := active.id
    targetIds := [targetId]
    edges := [edge]
    window := nextWindow
    distance := distance }

/-- Horizontal resize candidates contributed by one sibling, in the push
order of `computeResizeSnapTarget` (`geometry.ts`, lines 892-926). -/
def resizeHorizontalFor (active : WindowData) (activeEdges : Edges)
    (other : WindowData) (direction : ResizeDirection)
    (snapDistance snapOverlap : ℚ) (canvas : Option CanvasSize) :
    List SnapCandidate :=
  let otherEdges := windowEdges other
  let verticalOverlap :=
    computeOverlap activeEdges.top activeEdges.bottom otherEdges.top otherEdges.bottom
  let verticalGap :=
    computeGap activeEdges.top activeEdges.bottom otherEdges.top otherEdges.bottom
  if (movesRight direction || movesLeft direction) &&
      withinSnapThreshold verticalOverlap verticalGap snapOverlap snapDistance then
    let distanceToLeft := qabs (otherEdges.left - activeEdges.right)
    let distanceToRight := qabs (otherEdges.right - activeEdges.right)
    let distanceFromLeft := qabs (activeEdges.left - otherEdges.left)
    let distanceFromRight := qabs (activeEdges.left - otherEdges.right)
    if movesRight direction && movesLeft direction then
      (if distanceToLeft ≤ snapDistance then
        [resizeHorizontalCandidate active activeEdges SnapEdge.right
          otherEdges.left distanceToLeft other.id canvas] else []) ++
      (if distanceToRight ≤ snapDistance then
        [resizeHorizontalCandidate active activeEdges SnapEdge.right
          otherEdges.right distanceToRight other.id canvas] else []) ++
      (if distanceFromLeft ≤ snapDistance then
        [resizeHorizontalCandidate active activeEdges SnapEdge.left
          otherEdges.left distanceFromLeft other.id canvas] else []) ++
      (if distanceFromRight ≤ snapDistance then
        [resizeHorizontalCandidate active activeEdges SnapEdge.left
          otherEdges.right distanceFromRight other.id canvas] else [])
    else if movesRight direction then
      (if distanceToLeft ≤ snapDistance then
        [resizeHorizontalCandidate active activeEdges SnapEdge.right
          otherEdges.left distanceToLeft other.id canvas] else []) ++
      (if distanceToRight ≤ snapDistance then
        [resizeHorizontalCandidate active activeEdges SnapEdge.right
          otherEdges.right distanceToRight other.id canvas] else [])
    else if movesLeft direction then
      (if distanceFromLeft ≤ snapDistance then
        [resizeHorizontalCandidate active activeEdges SnapEdge.left
          otherEdges.left distanceFromLeft other.id canvas] else []) ++
      (if distanceFromRight ≤ snapDistance then
        [resizeHorizontalCandidate active activeEdges SnapEdge.left
          otherEdges.right distanceFromRight other.id canvas] else [])
    else []
  else []

/-- Vertical resize candidates contributed by one sibling, in the push
order of `computeResizeSnapTarget` (`geometry.ts`, lines 928-962). -/
def resizeVerticalFor (active : WindowData) (activeEdges : Edges)
    (other : WindowData) (direction : ResizeDirection)
    (snapDistance snapOverlap : ℚ) (canvas : Option CanvasSize) :
    List SnapCandidate :=
  let otherEdges := windowEdges other
  let horizontalOverlap :=
    computeOverlap activeEdges.left activeEdges.right otherEdges.left otherEdges.right
  let horizontalGap :=
    computeGap activeEdges.left activeEdges.right otherEdges.left otherEdges.right
  if (movesTop direction || movesBottom direction) &&
      withinSnapThreshold horizontalOverlap horizontalGap snapOverlap snapDistance then
    let distanceToTop := qabs (otherEdges.top - activeEdges.bottom)
    let distanceToBottom := qabs (otherEdges.bottom - activeEdges.bottom)
    let distanceFromTop := qabs (activeEdges.top - otherEdges.top)
    let distanceFromBottom := qabs (activeEdges.top - otherEdges.bottom)
    if movesTop direction && movesBottom direction then
      (if distanceToTop ≤ snapDistance then
        [resizeVerticalCandidate active activeEdges SnapEdge.bottom
          otherEdges.top distanceToTop other.id canvas] else []) ++
      (if distanceToBottom ≤ snapDistance then
        [resizeVerticalCandidate active activeEdges SnapEdge.bottom
          otherEdges.bottom distanceToBottom other.id canvas] else []) ++
      (if distanceFromTop ≤ snapDistance then
        [resizeVerticalCandidate active activeEdges SnapEdge.top
          otherEdges.top distanceFromTop other.id canvas] else []) ++
      (if distanceFromBottom ≤ snapDistance then
        [resizeVerticalCandidate active activeEdges SnapEdge.top
          otherEdges.bottom distanceFromBottom other.id canvas] else [])
    else if movesBottom direction then
      (if distanceToTop ≤ snapDistance then
        [resizeVerticalCandidate active activeEdges SnapEdge.bottom
          otherEdges.top distanceToTop other.id canvas] else []) ++
      (if distanceToBottom ≤ snapDistance then
        [resizeVerticalCandidate active activeEdges SnapEdge.bottom
          otherEdges.bottom distanceToBottom other.id canvas] else [])
    else if movesTop direction then
      (if distanceFromTop ≤ snapDistance then
        [resizeVerticalCandidate active activeEdges SnapEdge.top
          otherEdges.top distanceFromTop other.id canvas] else []) ++
      (if distanceFromBottom ≤ snapDistance then
        [resizeVerticalCandidate active activeEdges SnapEdge.top
          otherEdges.bottom distanceFromBottom other.id canvas] else [])
    else []
  else []

/-- `computeResizeSnapTarget` (`geometry.ts`, lines 760-979): same
pipeline as drag snapping, direction-gated edges, no stickiness. -/
def computeResizeSnapTarget (active : WindowData) (others : List WindowData)
    (direction : ResizeDirection) (canvas : Option CanvasSize)
    (config : SnapConfig) : Option SnapCandidate :=
  let snapDistance := config.distance
  let snapOverlap := config.overlap
  let activeEdges := windowEdges active
  let horizontalCandidates := others.flatMap fun other =>
    if other.id = active.id then []
    else resizeHorizontalFor active activeEdges other direction snapDistance
      snapOverlap canvas
  let verticalCandidates := others.flatMap fun other =>
    if other.id = active.id then []
    else resizeVerticalFor active activeEdges other direction snapDistance
      snapOverlap canvas
  selectBestTarget horizontalCandidates verticalCandidates
    (combineDragWindows active) canvas

/-- `canvasToWindow` (`geometry.ts`, lines 140-150): the synthetic
canvas rectangle used by the hint resolvers as an alignment target. -/
def canvasToWindow (canvas : Option CanvasSize) : Option WindowData :=
  canvas.map fun c =>
    { id := "__canvas__", x := 0, y := 0, width := c.width, height := c.height,
      zIndex := 0, windowStyle := none }

/-- `AxisCandidate` (`geometry.ts`): a per-axis hint candidate carrying
its guide. -/
structure AxisCandidate where
  window : WindowData
  guide : HintGuide
  edge : SnapEdge
  distance : ℚ
  targetIds : List String
deriving DecidableEq

/-- `buildGuide` (`geometry.ts`): a guide spans the union of the active
and target extents on the perpendicular axis. -/
def buildGuide (activeId targetId : String) (orientation : Orientation)
    (position : ℚ) (activeEdges targetEdges : Edges) (edge : SnapEdge) :
    HintGuide :=
  { activeId := activeId
    targetIds := [targetId]
    orientation := orientation
    position := position
    start :=
      match orientation with
      | Orientation.vertical => qmin activeEdges.top targetEdges.top
      | Orientation.horizontal => qmin activeEdges.left targetEdges.left
    stop :=
      match orientation with
      | Orientation.vertical => qmax activeEdges.bottom targetEdges.bottom
      | Orientation.horizontal => qmax activeEdges.right targetEdges.right
    edge := edge }

/-- `pickBestAxisCandidate` (`geometry.ts`): strict `<`, first-seen wins
ties. -/
def pickBestAxisCandidate (current : Option AxisCandidate)
    (next : AxisCandidate) : Option AxisCandidate :=
  match current with
  | none => some next
  | some c => if next.distance < c.distance then some next else some c

/-- One `considerHorizontal` step of `buildHintAxisCandidates`
(`geometry.ts`, lines 341-382), acting on the accumulator. -/
def considerHorizontalHint (active target : WindowData)
    (canvas : Option CanvasSize) (limitDistance : ℚ)
    (acc : Option AxisCandidate) (edge : SnapEdge) (targetEdge : ℚ) :
    Option AxisCandidate :=
  let activeEdges := windowEdges active
  let targetEdges := windowEdges target
  let activeCenterX := (activeEdges.left + activeEdges.right) / 2
  let activePosition :=
    match edge with
    | SnapEdge.left => activeEdges.left
    | SnapEdge.right => activeEdges.right
    | _ => activeCenterX
  let distance := qabs (activePosition - targetEdge)
  if limitDistance < distance then acc
  else
    let x :=
      match edge with
      | SnapEdge.left => targetEdge
      | SnapEdge.right => targetEdge - active.width
      | _ => targetEdge - active.width / 2
    let candidate : AxisCandidate :=
      { window := clampWindowToBounds { active with x := x } canvas
        guide := buildGuide active.id target.id Orientation.vertical targetEdge
          activeEdges targetEdges edge
        edge := edge
        distance := distance
        targetIds := [target.id] }
    pickBestAxisCandidate acc candidate

/-- One `considerVertical` step of `buildHintAxisCandidates`
(`geometry.ts`, lines 384-425). -/
def considerVerticalHint (active target : WindowData)
    (canvas : Option CanvasSize) (limitDistance : ℚ)
    (acc : Option AxisCandidate) (edge : SnapEdge) (targetEdge : ℚ) :
    Option AxisCandidate :=
  let activeEdges := windowEdges active
  let targetEdges := windowEdges target
  let activeCenterY := (activeEdges.top + activeEdges.bottom) / 2
  let activePosition :=
    match edge with
    | SnapEdge.top => activeEdges.top
    | SnapEdge.bottom => activeEdges.bottom
    | _ => activeCenterY
  let distance := qabs (activePosition - targetEdge)
  if limitDistance < distance then acc
  else
    let y :=
      match edge with
      | SnapEdge.top => targetEdge
      | SnapEdge.bottom => targetEdge - active.height
      | _ => targetEdge - active.height / 2
    let candidate : AxisCandidate :=
      { window := clampWindowToBounds { active with y := y } canvas
        guide := buildGuide active.id target.id Orientation.horizontal targetEdge
          activeEdges targetEdges edge
        edge := edge
        distance := distance
        targetIds := [target.id] }
    pickBestAxisCandidate acc candidate

/-- `buildHintAxisCandidates` (`geometry.ts`, lines 322-440): the five
horizontal checks (left/left, left/right, right/left, right/right,
centerX/centerX) and the five vertical analogues, in source order.
There is no cross-axis overlap/gap gate. -/
def buildHintAxisCandidates (active target : WindowData)
    (canvas : Option CanvasSize) (limitDistance : ℚ) :
    Option AxisCandidate × Option AxisCandidate :=
  let targetEdges := windowEdges target
  let targetCenterX := (targetEdges.left + targetEdges.right) / 2
  let targetCenterY := (targetEdges.top + targetEdges.bottom) / 2
  let h := considerHorizontalHint active target canvas limitDistance none
    SnapEdge.left targetEdges.left
  let h := considerHorizontalHint active target canvas limitDistance h
    SnapEdge.left targetEdges.right
  let h := considerHorizontalHint active target canvas limitDistance h
    SnapEdge.right targetEdges.left
  let h := considerHorizontalHint active target canvas limitDistance h
    SnapEdge.right targetEdges.right
  let h := considerHorizontalHint active target canvas limitDistance h
    SnapEdge.centerX targetCenterX
  let v := considerVerticalHint active target canvas limitDistance none
    SnapEdge.top targetEdges.top
  let v := considerVerticalHint active target canvas limitDistance v
    SnapEdge.top targetEdges.bottom
  let v := considerVerticalHint active target canvas limitDistance v
    SnapEdge.bottom targetEdges.top
  let v := considerVerticalHint active target canvas limitDistance v
    SnapEdge.bottom targetEdges.bottom
  let v := considerVerticalHint active target canvas limitDistance v
    SnapEdge.centerY targetCenterY
  (h, v)

/-- JavaScript `a || b` on numbers where `0` is falsy. -/
def jsOrQ (a b : ℚ) : ℚ := if a = 0 then b else a

/-- `combineHintTargets` (`geometry.ts`, lines 241-278): combine the
winning snap-threshold axis candidates (either axis may be absent). -/
def combineHintTargets (active : WindowData)
    (horizontal vertical : Option AxisCandidate)
    (canvas : Option CanvasSize) : Option SnapCandidate :=
  match horizontal, vertical with
  | none, none => none
  | _, _ =>
    let targetIds := jsDedup
      ((horizontal.elim [] (·.targetIds)) ++ (vertical.elim [] (·.targetIds)))
    let window := clampWindowToBounds
      { active with
          x := horizontal.elim active.x (·.window.x)
          width := horizontal.elim active.width (·.window.width)
          y := vertical.elim active.y (·.window.y)
          height := vertical.elim active.height (·.window.height) }
      canvas
    let distance :=
      (horizontal.elim 0 (·.distance)) + (vertical.elim 0 (·.distance))
    some
      { activeId := active.id
        targetIds := targetIds
        edges := (horizontal.elim [] fun h => [h.edge]) ++
          (vertical.elim [] fun v => [v.edge])
        window := window
        distance := jsOrQ distance (jsOrQ (horizontal.elim 0 (·.distance))
          (jsOrQ (vertical.elim 0 (·.distance)) 0)) }

/-- Result of the hint resolvers: optional snap target plus guides. -/
structure HintResult where
  target : Option SnapCandidate
  guides : List HintGuide
deriving DecidableEq

/-- The per-target accumulator update of `computeDragHintTarget`'s
`forEach` body (`geometry.ts`, lines 458-499): guide-threshold and
snap-threshold axis candidates folded with `pickBestAxisCandidate`. -/
def dragHintStep (active : WindowData) (canvas : Option CanvasSize)
    (hintDistance snapDistance : ℚ)
    (acc : Option AxisCandidate × Option AxisCandidate ×
      Option AxisCandidate × Option AxisCandidate)
    (target : WindowData) :
    Option AxisCandidate × Option AxisCandidate ×
      Option AxisCandidate × Option AxisCandidate :=
  if target.id = active.id then acc
  else
    let guideCandidates := buildHintAxisCandidates active target canvas hintDistance
    let snapCandidates := buildHintAxisCandidates active target canvas snapDistance
    let gh := match guideCandidates.1 with
      | some c => pickBestAxisCandidate acc.1 c
      | none => acc.1
    let gv := match guideCandidates.2 with
      | some c => pickBestAxisCandidate acc.2.1 c
      | none => acc.2.1
    let sh := match snapCandidates.1 with
      | some c => pickBestAxisCandidate acc.2.2.1 c
      | none => acc.2.2.1
    let sv := match snapCandidates.2 with
      | some c => pickBestAxisCandidate acc.2.2.2 c
      | none => acc.2.2.2
    (gh, gv, sh, sv)

/-- `computeDragHintTarget` (`geometry.ts`, lines 442-520): targets are
`others` plus the synthetic canvas rectangle when the canvas is known. -/
def computeDragHintTarget (active : WindowData) (others : List WindowData)
    (canvas : Option CanvasSize) (hintConfig : HintConfigR) : HintResult :=
  let hintDistance := hintConfig.distance
  let snapDistance := hintConfig.snapDistance.getD hintDistance
  let targets := match canvasToWindow canvas with
    | some canvasWindow => others ++ [canvasWindow]
    | none => others
  let acc := targets.foldl (dragHintStep active canvas hintDistance snapDistance)
    (none, none, none, none)
  let guides := (acc.1.elim [] fun g => [g.guide]) ++
    (acc.2.1.elim [] fun g => [g.guide])
  { target := combineHintTargets active acc.2.2.1 acc.2.2.2 canvas
    guides := guides }

/-! ### Concrete fixtures used by the scenario theorems -/

/-- A window with no style overrides (the defaults 320x240 minima apply). -/
def mkWindow (id : String) (x y w h : ℚ) : WindowData :=
  ⟨id, x, y, w, h, 0, none⟩

def scenarioCanvas : CanvasSize := ⟨1000, 1000⟩

def dragActive : WindowData := mkWindow "active" 100 100 300 300

def dragNeighbor : WindowData := mkWindow "neighbor" 420 100 300 300

def resizeActive : WindowData := mkWindow "active" 100 100 200 200

def resizeBelow : WindowData := mkWindow "below" 100 320 200 100

/-! ### Theorems -/

/-- Helper: `Math.min(Math.max(0, a), a)` is `a` — the position pipeline
of `clampWindowToBounds` is the identity when no canvas caps it. -/
theorem qmin_qmax_zero_self (a : ℚ) : qmin (qmax 0 a) a = a := by
  rw [qmin_eq, qmax_eq]
  exact min_eq_right (le_max_right 0 a)

/-- C3, amended: with no canvas supplied, `clampWindowToBounds` leaves the
position entirely unchanged — `maxX ?? window.x` falls back to `window.x`,
so `Math.min(Math.max(0, x), x) = x` and no non-negativity clamp applies
(the `x >= 0` lower bound, like the upper bound, exists only when the
canvas is known). -/
theorem clampWindowToBounds_no_canvas_position (w : WindowData) :
    (clampWindowToBounds w none).x = w.x ∧ (clampWindowToBounds w none).y = w.y := by
  constructor <;> simp [clampWindowToBounds, qmin_qmax_zero_self]

/-- C8, amended: with an empty sibling list and no sticky carry-over,
`computeDragSnapTarget` returns `null` for every active rectangle, canvas
and config; `computeDragHintTarget` returns a null target and no guides
for every active rectangle and hint config provided the canvas is absent
(with a known canvas the synthetic canvas rectangle can still produce
hints). Neither function can fail: both are total. -/
theorem emptySiblings_noTargets (active : WindowData) (canvas : Option CanvasSize)
    (config : SnapConfig) (hintConfig : HintConfigR) :
    computeDragSnapTarget active [] canvas none config = none ∧
    computeDragHintTarget active [] none hintConfig = ⟨none, []⟩ := by
  constructor <;> rfl

/-- Helper: with no sticky carry-over, `computeDragSnapTarget` is exactly
the fresh candidate pipeline. -/
theorem computeDragSnapTarget_none_sticky (active : WindowData)
    (others : List WindowData) (canvas : Option CanvasSize)
    (config : SnapConfig) :
    computeDragSnapTarget active others canvas none config =
      freshDragCandidate active others canvas config := by
  unfold computeDragSnapTarget applySticky
  cases freshDragCandidate active others canvas config <;> rfl

/-- C5: when the fresh pipeline finds no candidate and the supplied
sticky target belongs to this active id and every one of its recorded
edges is still within `config.distance` of the matching active edge,
`computeDragSnapTarget` returns the sticky value itself, unchanged;
whenever the sticky re-validation fails, the fresh (possibly null)
result is returned instead. -/
theorem computeDragSnapTarget_stickiness (active : WindowData)
    (others : List WindowData) (canvas : Option CanvasSize)
    (config : SnapConfig) (sticky : SnapCandidate) :
    (computeDragSnapTarget active others canvas none config = none →
      sticky.activeId = active.id →
      stickyStillValid (windowEdges active) sticky config.distance = true →
      computeDragSnapTarget active others canvas (some sticky) config =
        some sticky) ∧
    (stickyStillValid (windowEdges active) sticky config.distance = false →
      computeDragSnapTarget active others canvas (some sticky) config =
        computeDragSnapTarget active others canvas none config) := by
  rw [computeDragSnapTarget_none_sticky]
  constructor
  · intro h1 h2 h3
    unfold computeDragSnapTarget applySticky
    rw [h1]
    simp [h2, h3]
  · intro h3
    unfold computeDragSnapTarget applySticky
    cases freshDragCandidate active others canvas config with
    | none => simp [h3]
    | some c => rfl

/-- The sticky fixture of the repository's own test: a previously
accepted left-edge candidate 5px away from the current active rect. -/
def stickyFixture : SnapCandidate :=
  ⟨"active", ["neighbor"], [SnapEdge.left], mkWindow "active" 50 50 320 240, 5⟩

def stickyActive : WindowData := mkWindow "active" 55 55 320 240

/-- `m` is the first-seen minimum-distance element of `l`: `l` splits
around `m` with every earlier element strictly farther and every later
element no closer. -/
def firstSeenMin (l : List SnapCandidate) (m : SnapCandidate) : Prop :=
  ∃ l1 l2, l = l1 ++ m :: l2 ∧ (∀ c ∈ l1, m.distance < c.distance) ∧
    (∀ c ∈ l2, m.distance ≤ c.distance)

theorem firstSeenMin_mem {l : List SnapCandidate} {m : SnapCandidate}
    (h : firstSeenMin l m) : m ∈ l := by
  obtain ⟨l1, l2, rfl, -, -⟩ := h
  simp

theorem pickBestSnap_go (l : List SnapCandidate) (acc : SnapCandidate) :
    ∃ m, List.foldl pickBestSnapStep (some acc) l = some m ∧
      firstSeenMin (acc :: l) m := by
  induction l generalizing acc with
  | nil => exact ⟨acc, rfl, [], [], rfl, by simp, by simp⟩
  | cons b t ih =>
    rw [List.foldl_cons]
    by_cases hb : b.distance < acc.distance
    · have hstep : pickBestSnapStep (some acc) b = some b := by
        simp [pickBestSnapStep, hb]
      rw [hstep]
      obtain ⟨m, hm, l1, l2, hsplit, h1, h2⟩ := ih b
      refine ⟨m, hm, acc :: l1, l2, by simp [hsplit], ?_, h2⟩
      intro c hc
      rcases List.mem_cons.mp hc with rfl | hc
      · cases l1 with
        | nil =>
          obtain ⟨rfl, -⟩ : b = m ∧ t = l2 := by simpa using hsplit
          exact hb
        | cons c1 t1 =>
          obtain ⟨hbc, -⟩ : b = c1 ∧ t = t1 ++ m :: l2 := by simpa using hsplit
          have h1b := h1 c1 (List.mem_cons_self _ _)
          rw [← hbc] at h1b
          exact lt_trans h1b hb
      · exact h1 c hc
    · have hstep : pickBestSnapStep (some acc) b = some acc := by
        simp [pickBestSnapStep, hb]
      rw [hstep]
      obtain ⟨m, hm, l1, l2, hsplit, h1, h2⟩ := ih acc
      cases l1 with
      | nil =>
        obtain ⟨rfl, rfl⟩ : acc = m ∧ t = l2 := by simpa using hsplit
        refine ⟨acc, hm, [], b :: t, by simp, by simp, ?_⟩
        intro c hc
        rcases List.mem_cons.mp hc with rfl | hc
        · exact not_lt.mp hb
        · exact h2 c hc
      | cons c1 t1 =>
        obtain ⟨hac, rfl⟩ : acc = c1 ∧ t = t1 ++ m :: l2 := by simpa using hsplit
        have hmacc : m.distance < acc.distance := by
          have := h1 c1 (List.mem_cons_self _ _)
          rw [← hac] at this
          exact this
        refine ⟨m, hm, acc :: b :: t1, l2, by simp, ?_, h2⟩
        intro c hc
        rcases List.mem_cons.mp hc with rfl | hc
        · exact hmacc
        · rcases List.mem_cons.mp hc with rfl | hc
          · exact lt_of_lt_of_le hmacc (not_lt.mp hb)
          · exact h1 c (List.mem_cons.mpr (Or.inr hc))

/-- `pickBestSnap` of a non-empty list returns exactly the first-seen
minimum-distance candidate (strict `<` comparison, first wins ties). -/
theorem pickBestSnap_spec (l : List SnapCandidate) (h : l ≠ []) :
    ∃ m, pickBestSnap l = some m ∧ firstSeenMin l m := by
  cases l with
  | nil => exact absurd rfl h
  | cons a t =>
    have hgo := pickBestSnap_go t a
    simpa [pickBestSnap, pickBestSnapStep] using hgo

/-- C4: the candidate selector.  If both axis lists are non-empty, the
result merges the per-axis first-seen minimum-distance winners: edges
unioned, targetIds unioned and deduplicated, distance the sum of the two
winners' distances, and the combined rectangle clamped against the
canvas.  If exactly one axis has candidates, the result is that axis's
minimum-distance candidate, uncombined.  If neither axis has candidates,
the result is `none`.  The per-axis minimum uses a strict `<` comparison
so the first-seen candidate wins ties (`firstSeenMin`). -/
theorem selectBestTarget_spec (hs vs : List SnapCandidate)
    (combineWindows : SnapCandidate → SnapCandidate → WindowData)
    (canvas : Option CanvasSize) :
    (hs ≠ [] → vs ≠ [] → ∃ h v, pickBestSnap hs = some h ∧ firstSeenMin hs h ∧
      pickBestSnap vs = some v ∧ firstSeenMin vs v ∧
      selectBestTarget hs vs combineWindows canvas = some
        { activeId := h.activeId
          targetIds := jsDedup (h.targetIds ++ v.targetIds)
          edges := jsDedup (h.edges ++ v.edges)
          window := clampWindowToBounds (combineWindows h v) canvas
          distance := h.distance + v.distance }) ∧
    (hs ≠ [] → vs = [] → ∃ h, pickBestSnap hs = some h ∧ firstSeenMin hs h ∧
      selectBestTarget hs vs combineWindows canvas = some h) ∧
    (hs = [] → vs ≠ [] → ∃ v, pickBestSnap vs = some v ∧ firstSeenMin vs v ∧
      selectBestTarget hs vs combineWindows canvas = some v) ∧
    (hs = [] → vs = [] → selectBestTarget hs vs combineWindows canvas = none) := by
  refine ⟨?_, ?_, ?_, ?_⟩
  · intro hhs hvs
    obtain ⟨h, hh, hfh⟩ := pickBestSnap_spec hs hhs
    obtain ⟨v, hv, hfv⟩ := pickBestSnap_spec vs hvs
    refine ⟨h, v, hh, hfh, hv, hfv, ?_⟩
    unfold selectBestTarget
    rw [hh, hv]
    rfl
  · intro hhs hvs
    obtain ⟨h, hh, hfh⟩ := pickBestSnap_spec hs hhs
    refine ⟨h, hh, hfh, ?_⟩
    subst hvs
    unfold selectBestTarget
    rw [hh]
    simpa [mergeTargets, pickBestSnap] using hh
  · intro hhs hvs
    obtain ⟨v, hv, hfv⟩ := pickBestSnap_spec vs hvs
    refine ⟨v, hv, hfv, ?_⟩
    subst hhs
    unfold selectBestTarget
    rw [hv]
    simpa [mergeTargets, pickBestSnap] using hv
  · intro hhs hvs
    subst hhs
    subst hvs
    rfl

def witCandH : SnapCandidate :=
  ⟨"a", ["t1"], [SnapEdge.left], mkWindow "a" 0 0 320 240, 3⟩

def witCandV : SnapCandidate :=
  ⟨"a", ["t2"], [SnapEdge.top], mkWindow "a" 5 5 320 240, 7⟩

/-- Witness for C4: the selector applied to two one-element axis lists
produces the merged candidate with unioned ids/edges and summed
distance. -/
theorem selectBestTarget_spec_witness :
    selectBestTarget [witCandH] [witCandV]
      (combineDragWindows (mkWindow "a" 0 0 320 240)) none = some
        { activeId := witCandH.activeId
          targetIds := jsDedup (witCandH.targetIds ++ witCandV.targetIds)
          edges := jsDedup (witCandH.edges ++ witCandV.edges)
          window := clampWindowToBounds
            (combineDragWindows (mkWindow "a" 0 0 320 240) witCandH witCandV) none
          distance := witCandH.distance + witCandV.distance } := by
  obtain ⟨h, v, hh, -, hv, -, hres⟩ :=
    (selectBestTarget_spec [witCandH] [witCandV]
      (combineDragWindows (mkWindow "a" 0 0 320 240)) none).1
      (by simp) (by simp)
  have eh : witCandH = h := by
    simpa [pickBestSnap, pickBestSnapStep] using hh
  have ev : witCandV = v := by
    simpa [pickBestSnap, pickBestSnapStep] using hv
  rw [← eh, ← ev] at hres
  exact hres

theorem pickBestAxisCandidate_isSome (acc : Option AxisCandidate)
    (next : AxisCandidate) : (pickBestAxisCandidate acc next).isSome = true := by
  cases acc with
  | none => rfl
  | some c =>
    by_cases h : next.distance < c.distance <;> simp [pickBestAxisCandidate, h]

theorem ite_pickBest_isSome (acc : Option AxisCandidate) (cand : AxisCandidate)
    (lim d : ℚ) :
    (if lim < d then acc else pickBestAxisCandidate acc cand).isSome = true ↔
      acc.isSome = true ∨ d ≤ lim := by
  by_cases hd : lim < d
  · simp [hd, hd.not_le]
  · simp [hd, pickBestAxisCandidate_isSome, not_lt.mp hd]

theorem considerHorizontalHint_isSome (active target : WindowData)
    (canvas : Option CanvasSize) (lim : ℚ) (acc : Option AxisCandidate)
    (edge : SnapEdge) (te : ℚ) :
    (considerHorizontalHint active target canvas lim acc edge te).isSome = true ↔
      acc.isSome = true ∨
        qabs ((match edge with
          | SnapEdge.left => active.x
          | SnapEdge.right => active.x + active.width
          | _ => (active.x + (active.x + active.width)) / 2) - te) ≤ lim := by
  cases edge <;> exact ite_pickBest_isSome _ _ _ _

theorem considerVerticalHint_isSome (active target : WindowData)
    (canvas : Option CanvasSize) (lim : ℚ) (acc : Option AxisCandidate)
    (edge : SnapEdge) (te : ℚ) :
    (considerVerticalHint active target canvas lim acc edge te).isSome = true ↔
      acc.isSome = true ∨
        qabs ((match edge with
          | SnapEdge.top => active.y
          | SnapEdge.bottom => active.y + active.height
          | _ => (active.y + (active.y + active.height)) / 2) - te) ≤ lim := by
  cases edge <;> exact ite_pickBest_isSome _ _ _ _

def hintFarActive : WindowData := mkWindow "a" 0 0 100 100

def hintFarTarget : WindowData := mkWindow "b" 0 600 100 100

/-- Part 1 of the no-cross-gate characterisation: a horizontal hint
candidate exists iff one of the five horizontal alignment distances is
within the threshold — a condition on x/width alone. -/
theorem buildHint_horizontal_isSome_iff (active target : WindowData)
    (canvas : Option CanvasSize) (lim : ℚ) :
    (buildHintAxisCandidates active target canvas lim).1.isSome = true ↔
      (qabs (active.x - target.x) ≤ lim ∨
       qabs (active.x - (target.x + target.width)) ≤ lim ∨
       qabs (active.x + active.width - target.x) ≤ lim ∨
       qabs (active.x + active.width - (target.x + target.width)) ≤ lim ∨
       qabs ((active.x + (active.x + active.width)) / 2 -
         (target.x + (target.x + target.width)) / 2) ≤ lim) := by
  simp only [buildHintAxisCandidates, windowEdges]
  rw [considerHorizontalHint_isSome, considerHorizontalHint_isSome,
    considerHorizontalHint_isSome, considerHorizontalHint_isSome,
    considerHorizontalHint_isSome]
  simp [or_assoc]

/-- Part 2: the vertical analogue, a condition on y/height alone. -/
theorem buildHint_vertical_isSome_iff (active target : WindowData)
    (canvas : Option CanvasSize) (lim : ℚ) :
    (buildHintAxisCandidates active target canvas lim).2.isSome = true ↔
      (qabs (active.y - target.y) ≤ lim ∨
       qabs (active.y - (target.y + target.height)) ≤ lim ∨
       qabs (active.y + active.height - target.y) ≤ lim ∨
       qabs (active.y + active.height - (target.y + target.height)) ≤ lim ∨
       qabs ((active.y + (active.y + active.height)) / 2 -
         (target.y + (target.y + target.height)) / 2) ≤ lim) := by
  simp only [buildHintAxisCandidates, windowEdges]
  rw [considerVerticalHint_isSome, considerVerticalHint_isSome,
    considerVerticalHint_isSome, considerVerticalHint_isSome,
    considerVerticalHint_isSome]
  simp [or_assoc]

theorem mem_of_mem_jsDedup {α : Type} [DecidableEq α] {l : List α} {x : α}
    (h : x ∈ jsDedup l) : x ∈ l := by
  induction l with
  | nil => simp [jsDedup] at h
  | cons a t ih =>
    simp only [jsDedup, List.mem_cons, List.mem_filter] at h
    rcases h with rfl | ⟨h1, -⟩
    · exact List.mem_cons_self _ _
    · exact List.mem_cons.mpr (Or.inr (ih h1))

theorem pickBestSnap_mem {l : List SnapCandidate} {m : SnapCandidate}
    (h : pickBestSnap l = some m) : m ∈ l := by
  cases l with
  | nil => simp [pickBestSnap] at h
  | cons a t =>
    obtain ⟨m', hm', hf⟩ := pickBestSnap_spec (a :: t) (by simp)
    rw [h] at hm'
    obtain rfl : m = m' := by simpa using hm'
    exact firstSeenMin_mem hf

theorem mem_ite_singleton {α : Type} {p : Prop} [Decidable p] {c x : α}
    (h : c ∈ (if p then [x] else [])) : c = x := by
  split at h
  · simpa using h
  · simp at h

/-- Every candidate generated against one sibling carries exactly that
sibling's id. -/
theorem dragHorizontalFor_targetIds (active : WindowData) (aE : Edges)
    (other : WindowData) (d o : ℚ) (cv : Option CanvasSize) :
    ∀ c ∈ dragHorizontalFor active aE other d o cv, c.targetIds = [other.id] := by
  intro c hc
  unfold dragHorizontalFor at hc
  dsimp only at hc
  split at hc
  · simp only [List.mem_append] at hc
    rcases hc with ((hc | hc) | hc) | hc <;> rw [mem_ite_singleton hc] <;> rfl
  · simp at hc

theorem dragVerticalFor_targetIds (active : WindowData) (aE : Edges)
    (other : WindowData) (d o : ℚ) (cv : Option CanvasSize) :
    ∀ c ∈ dragVerticalFor active aE other d o cv, c.targetIds = [other.id] := by
  intro c hc
  unfold dragVerticalFor at hc
  dsimp only at hc
  split at hc
  · simp only [List.mem_append] at hc
    rcases hc with ((hc | hc) | hc) | hc <;> rw [mem_ite_singleton hc] <;> rfl
  · simp at hc

/-- Provenance of the selector's targetIds: every id in a non-null result
comes from some candidate in one of the two axis lists. -/
theorem selectBestTarget_targetIds {hs vs : List SnapCandidate}
    {f : SnapCandidate → SnapCandidate → WindowData} {cv : Option CanvasSize}
    {cand : SnapCandidate} (h : selectBestTarget hs vs f cv = some cand) :
    ∀ tid ∈ cand.targetIds,
      (∃ c ∈ hs, tid ∈ c.targetIds) ∨ (∃ c ∈ vs, tid ∈ c.targetIds) := by
  intro tid htid
  unfold selectBestTarget at h
  cases hch : pickBestSnap hs with
  | none =>
    rw [hch] at h
    have h' : pickBestSnap (hs ++ vs) = some cand := by
      simpa [mergeTargets] using h
    rcases List.mem_append.mp (pickBestSnap_mem h') with hm | hm
    · exact Or.inl ⟨cand, hm, htid⟩
    · exact Or.inr ⟨cand, hm, htid⟩
  | some ch =>
    cases hcv : pickBestSnap vs with
    | none =>
      rw [hch, hcv] at h
      have h' : pickBestSnap (hs ++ vs) = some cand := by
        simpa [mergeTargets] using h
      rcases List.mem_append.mp (pickBestSnap_mem h') with hm | hm
      · exact Or.inl ⟨cand, hm, htid⟩
      · exact Or.inr ⟨cand, hm, htid⟩
    | some cvv =>
      rw [hch, hcv] at h
      simp only [mergeTargets, Option.some.injEq] at h
      subst h
      have htid' : tid ∈ jsDedup (ch.targetIds ++ cvv.targetIds) := htid
      rcases List.mem_append.mp (mem_of_mem_jsDedup htid') with h1 | h1
      · exact Or.inl ⟨ch, pickBestSnap_mem hch, h1⟩
      · exact Or.inr ⟨cvv, pickBestSnap_mem hcv, h1⟩

/-- With no sticky carry-over, every targetId of a non-null drag snap
result is the id of one of the supplied siblings: the canvas never
contributes an alignment target to snapping. -/
theorem computeDragSnapTarget_fresh_targetIds (active : WindowData)
    (others : List WindowData) (canvas : Option CanvasSize)
    (config : SnapConfig) (cand : SnapCandidate)
    (h : computeDragSnapTarget active others canvas none config = some cand) :
    ∀ tid ∈ cand.targetIds, ∃ o ∈ others, o.id = tid := by
  rw [computeDragSnapTarget_none_sticky] at h
  unfold freshDragCandidate at h
  intro tid htid
  rcases selectBestTarget_targetIds h tid htid with ⟨c, hc, htc⟩ | ⟨c, hc, htc⟩
  · obtain ⟨o, ho, hco⟩ := List.mem_flatMap.mp hc
    by_cases heq : o.id = active.id
    · rw [if_pos heq] at hco
      simp at hco
    · rw [if_neg heq] at hco
      have hid := dragHorizontalFor_targetIds active (windowEdges active) o
        config.distance config.overlap canvas c hco
      rw [hid] at htc
      have : tid = o.id := by simpa using htc
      exact ⟨o, ho, this.symm⟩
  · obtain ⟨o, ho, hco⟩ := List.mem_flatMap.mp hc
    by_cases heq : o.id = active.id
    · rw [if_pos heq] at hco
      simp at hco
    · rw [if_neg heq] at hco
      have hid := dragVerticalFor_targetIds active (windowEdges active) o
        config.distance config.overlap canvas c hco
      rw [hid] at htc
      have : tid = o.id := by simpa using htc
      exact ⟨o, ho, this.symm⟩

/-- The width `clampWindowToBounds` settles on before positioning, given
a canvas: the size clamped to `[minWidth, maxWidth]` and capped by the
canvas extent. -/
def clampedWidth (w : WindowData) (c : CanvasSize) : ℚ :=
  qmin (minWithCap (qmax (resolveMinWidth w) w.width) (resolveMaxWidth w (some c)))
    c.width

/-- Height analogue of `clampedWidth`. -/
def clampedHeight (w : WindowData) (c : CanvasSize) : ℚ :=
  qmin (minWithCap (qmax (resolveMinHeight w) w.height) (resolveMaxHeight w (some c)))
    c.height

theorem resolveMaxWidth_le (w : WindowData) (c : CanvasSize) :
    ∃ m, resolveMaxWidth w (some c) = some m ∧ m ≤ c.width := by
  cases h : (w.windowStyle.getD emptyWindowStyle).maxWidth with
  | none => exact ⟨c.width, by simp [resolveMaxWidth, qInfMin, h], le_refl _⟩
  | some k =>
    refine ⟨qmin k c.width, by simp [resolveMaxWidth, qInfMin, h], ?_⟩
    rw [qmin_eq]
    exact min_le_right _ _

theorem resolveMaxHeight_le (w : WindowData) (c : CanvasSize) :
    ∃ m, resolveMaxHeight w (some c) = some m ∧ m ≤ c.height := by
  cases h : (w.windowStyle.getD emptyWindowStyle).maxHeight with
  | none => exact ⟨c.height, by simp [resolveMaxHeight, qInfMin, h], le_refl _⟩
  | some k =>
    refine ⟨qmin k c.height, by simp [resolveMaxHeight, qInfMin, h], ?_⟩
    rw [qmin_eq]
    exact min_le_right _ _

/-- Core positioning identity of the clamp's canvas branch: the `maxX`
floor at 0 is redundant and the post-positioning re-shrink leaves the
width unchanged. -/
theorem clamp_axis_eq (mn a xin mW cw : ℚ) :
    (min (max 0 xin) (max (cw - min (min (max mn a) mW) cw) 0) =
      min (max 0 xin) (cw - min (min (max mn a) mW) cw)) ∧
    (max (min (min (min (min (max mn a) mW) cw)
        (cw - min (max 0 xin) (max (cw - min (min (max mn a) mW) cw) 0))) mW) 0 =
      max (min (min (max mn a) mW) cw) 0) := by
  have h0 : min (min (max mn a) mW) cw ≤ cw := min_le_right _ _
  have h1 : max (cw - min (min (max mn a) mW) cw) 0 =
      cw - min (min (max mn a) mW) cw := max_eq_left (by linarith)
  constructor
  · rw [h1]
  · rw [h1]
    have hx : min (max 0 xin) (cw - min (min (max mn a) mW) cw) ≤
        cw - min (min (max mn a) mW) cw := min_le_right _ _
    have h2 : min (min (min (max mn a) mW) cw)
        (cw - min (max 0 xin) (cw - min (min (max mn a) mW) cw)) =
        min (min (max mn a) mW) cw := min_eq_left (by linarith)
    rw [h2]
    have h3 : min (min (min (max mn a) mW) cw) mW = min (min (max mn a) mW) cw :=
      min_eq_left ((min_le_left _ _).trans (min_le_right _ _))
    rw [h3]

/-- Closed form of `clampWindowToBounds` with a known canvas: the
rectangle is positioned at `min(max(0,x), canvas - clampedWidth)` and
sized `max(clampedWidth, 0)`. -/
theorem clampWindowToBounds_some_eq (w : WindowData) (c : CanvasSize) :
    clampWindowToBounds w (some c) =
      { w with
        x := qmin (qmax 0 w.x) (c.width - clampedWidth w c)
        y := qmin (qmax 0 w.y) (c.height - clampedHeight w c)
        width := qmax (clampedWidth w c) 0
        height := qmax (clampedHeight w c) 0 } := by
  obtain ⟨mW, hmW, hmWle⟩ := resolveMaxWidth_le w c
  obtain ⟨mH, hmH, hmHle⟩ := resolveMaxHeight_le w c
  unfold clampWindowToBounds clampedWidth clampedHeight
  rw [hmW, hmH]
  dsimp only [minWithCap]
  simp only [Option.map_some', Option.getD_some, qmin_eq, qmax_eq]
  have hW := clamp_axis_eq (resolveMinWidth w) w.width w.x mW c.width
  have hH := clamp_axis_eq (resolveMinHeight w) w.height w.y mH c.height
  rw [hW.2, hH.2, hW.1, hH.1]

theorem clampedWidth_le_canvas (w : WindowData) (c : CanvasSize) :
    clampedWidth w c ≤ c.width := by
  unfold clampedWidth
  rw [qmin_eq]
  exact min_le_right _ _

theorem clampedHeight_le_canvas (w : WindowData) (c : CanvasSize) :
    clampedHeight w c ≤ c.height := by
  unfold clampedHeight
  rw [qmin_eq]
  exact min_le_right _ _

theorem clampedWidth_nonneg (w : WindowData) (c : CanvasSize)
    (hmn : 0 ≤ resolveMinWidth w) (hcw : 0 ≤ c.width)
    (hmax : ∀ m ∈ (w.windowStyle.getD emptyWindowStyle).maxWidth, (0:ℚ) ≤ m) :
    0 ≤ clampedWidth w c := by
  obtain ⟨mW, hmW, -⟩ := resolveMaxWidth_le w c
  have hmW0 : 0 ≤ mW := by
    cases h : (w.windowStyle.getD emptyWindowStyle).maxWidth with
    | none =>
      rw [resolveMaxWidth, h] at hmW
      simp only [Option.map_some', qInfMin, Option.some.injEq] at hmW
      exact hmW ▸ hcw
    | some k =>
      have hk := hmax k (by simp [h])
      rw [resolveMaxWidth, h] at hmW
      simp only [Option.map_some', qInfMin, Option.some.injEq] at hmW
      rw [← hmW, qmin_eq]
      exact le_min hk hcw
  unfold clampedWidth
  rw [hmW]
  dsimp only [minWithCap]
  rw [qmin_eq, qmin_eq, qmax_eq]
  exact le_min (le_min (le_trans hmn (le_max_left _ _)) hmW0) hcw

theorem clampedHeight_nonneg (w : WindowData) (c : CanvasSize)
    (hmn : 0 ≤ resolveMinHeight w) (hch : 0 ≤ c.height)
    (hmax : ∀ m ∈ (w.windowStyle.getD emptyWindowStyle).maxHeight, (0:ℚ) ≤ m) :
    0 ≤ clampedHeight w c := by
  obtain ⟨mH, hmH, -⟩ := resolveMaxHeight_le w c
  have hmH0 : 0 ≤ mH := by
    cases h : (w.windowStyle.getD emptyWindowStyle).maxHeight with
    | none =>
      rw [resolveMaxHeight, h] at hmH
      simp only [Option.map_some', qInfMin, Option.some.injEq] at hmH
      exact hmH ▸ hch
    | some k =>
      have hk := hmax k (by simp [h])
      rw [resolveMaxHeight, h] at hmH
      simp only [Option.map_some', qInfMin, Option.some.injEq] at hmH
      rw [← hmH, qmin_eq]
      exact le_min hk hch
  unfold clampedHeight
  rw [hmH]
  dsimp only [minWithCap]
  rw [qmin_eq, qmin_eq, qmax_eq]
  exact le_min (le_min (le_trans hmn (le_max_left _ _)) hmH0) hch

/-- C1, amended: with a known canvas whose extent covers the resolved
minimum size, and with the resolved minimum and (when present) the
per-rectangle maximum size overrides non-negative, the clamped rectangle
is contained in the canvas: `0 <= x`, `0 <= y`, `x + width <= c.width`,
`y + height <= c.height`.  (Without the non-negativity of the size
bounds the containment fails, see the counterexample.) -/
theorem clampWindowToBounds_containment (w : WindowData) (c : CanvasSize)
    (hminW0 : 0 ≤ resolveMinWidth w) (hminWc : resolveMinWidth w ≤ c.width)
    (hminH0 : 0 ≤ resolveMinHeight w) (hminHc : resolveMinHeight w ≤ c.height)
    (hmaxW : ∀ m ∈ (w.windowStyle.getD emptyWindowStyle).maxWidth, (0:ℚ) ≤ m)
    (hmaxH : ∀ m ∈ (w.windowStyle.getD emptyWindowStyle).maxHeight, (0:ℚ) ≤ m) :
    0 ≤ (clampWindowToBounds w (some c)).x ∧
    0 ≤ (clampWindowToBounds w (some c)).y ∧
    (clampWindowToBounds w (some c)).x + (clampWindowToBounds w (some c)).width ≤
      c.width ∧
    (clampWindowToBounds w (some c)).y + (clampWindowToBounds w (some c)).height ≤
      c.height := by
  have hcw : (0:ℚ) ≤ c.width := le_trans hminW0 hminWc
  have hch : (0:ℚ) ≤ c.height := le_trans hminH0 hminHc
  have hW1 := clampedWidth_le_canvas w c
  have hW0 := clampedWidth_nonneg w c hminW0 hcw hmaxW
  have hH1 := clampedHeight_le_canvas w c
  have hH0 := clampedHeight_nonneg w c hminH0 hch hmaxH
  rw [clampWindowToBounds_some_eq]
  dsimp only
  rw [qmin_eq, qmin_eq, qmax_eq, qmax_eq, qmax_eq, qmax_eq]
  refine ⟨?_, ?_, ?_, ?_⟩
  · exact le_min (le_max_left _ _) (by linarith)
  · exact le_min (le_max_left _ _) (by linarith)
  · have hm := min_le_right (max 0 w.x) (c.width - clampedWidth w c)
    rw [max_eq_left hW0]
    linarith
  · have hm := min_le_right (max 0 w.y) (c.height - clampedHeight w c)
    rw [max_eq_left hH0]
    linarith

theorem resolveMaxWidth_none (w : WindowData) :
    resolveMaxWidth w none = (w.windowStyle.getD emptyWindowStyle).maxWidth := by
  cases h : (w.windowStyle.getD emptyWindowStyle).maxWidth <;>
    simp [resolveMaxWidth, qInfMin, h]

theorem resolveMaxHeight_none (w : WindowData) :
    resolveMaxHeight w none = (w.windowStyle.getD emptyWindowStyle).maxHeight := by
  cases h : (w.windowStyle.getD emptyWindowStyle).maxHeight <;>
    simp [resolveMaxHeight, qInfMin, h]

/-- Closed form of `clampWindowToBounds` without a canvas: position is
untouched; sizes are clamped to the resolved bounds and floored at 0. -/
theorem clampWindowToBounds_none_eq (w : WindowData) :
    clampWindowToBounds w none =
      { w with
        width := qmax (minWithCap (qmax (resolveMinWidth w) w.width)
          ((w.windowStyle.getD emptyWindowStyle).maxWidth)) 0
        height := qmax (minWithCap (qmax (resolveMinHeight w) w.height)
          ((w.windowStyle.getD emptyWindowStyle).maxHeight)) 0 } := by
  unfold clampWindowToBounds
  rw [resolveMaxWidth_none, resolveMaxHeight_none]
  simp only [Option.map_none', Option.getD_none]
  rw [qmin_qmax_zero_self, qmin_qmax_zero_self]

set_option maxHeartbeats 3000000 in
theorem width_fix_some (mn a mW cw : ℚ) (hmn : 0 ≤ mn) :
    min (min (max mn (max (min (min (max mn a) mW) cw) 0)) mW) cw =
      min (min (max mn a) mW) cw := by
  simp only [min_def, max_def]
  split_ifs <;> linarith

set_option maxHeartbeats 3000000 in
theorem width_fix_cap (mn a : ℚ) (cu : Option ℚ) (hmn : 0 ≤ mn) :
    qmax (minWithCap (qmax mn (qmax (minWithCap (qmax mn a) cu) 0)) cu) 0 =
      qmax (minWithCap (qmax mn a) cu) 0 := by
  cases cu with
  | none =>
    dsimp only [minWithCap]
    simp only [qmax_eq, max_def]
    split_ifs <;> linarith
  | some m =>
    dsimp only [minWithCap]
    simp only [qmin_eq, qmax_eq, min_def, max_def]
    split_ifs <;> linarith

theorem x_fix (u wb cw : ℚ) (h : 0 ≤ cw - wb) :
    min (max 0 (min (max 0 u) (cw - wb))) (cw - wb) = min (max 0 u) (cw - wb) := by
  have hx0 : 0 ≤ min (max 0 u) (cw - wb) := le_min (le_max_left _ _) h
  rw [max_eq_right hx0]
  exact min_eq_left (min_le_right _ _)

theorem resolveMinWidth_clamp (w : WindowData) (cv : Option CanvasSize) :
    resolveMinWidth (clampWindowToBounds w cv) = resolveMinWidth w := by
  cases cv <;> rfl

theorem resolveMinHeight_clamp (w : WindowData) (cv : Option CanvasSize) :
    resolveMinHeight (clampWindowToBounds w cv) = resolveMinHeight w := by
  cases cv <;> rfl

theorem clamp_some_x (w : WindowData) (c : CanvasSize) :
    (clampWindowToBounds w (some c)).x =
      qmin (qmax 0 w.x) (c.width - clampedWidth w c) := by
  rw [clampWindowToBounds_some_eq]

theorem clamp_some_y (w : WindowData) (c : CanvasSize) :
    (clampWindowToBounds w (some c)).y =
      qmin (qmax 0 w.y) (c.height - clampedHeight w c) := by
  rw [clampWindowToBounds_some_eq]

theorem clamp_some_width (w : WindowData) (c : CanvasSize) :
    (clampWindowToBounds w (some c)).width = qmax (clampedWidth w c) 0 := by
  rw [clampWindowToBounds_some_eq]

theorem clamp_some_height (w : WindowData) (c : CanvasSize) :
    (clampWindowToBounds w (some c)).height = qmax (clampedHeight w c) 0 := by
  rw [clampWindowToBounds_some_eq]

theorem clampedWidth_fix (w : WindowData) (c : CanvasSize)
    (hmn : 0 ≤ resolveMinWidth w) :
    clampedWidth (clampWindowToBounds w (some c)) c = clampedWidth w c := by
  obtain ⟨mW, hmW, -⟩ := resolveMaxWidth_le w c
  have e1 := resolveMinWidth_clamp w (some c)
  have e2 : resolveMaxWidth (clampWindowToBounds w (some c)) (some c) =
      resolveMaxWidth w (some c) := rfl
  unfold clampedWidth
  rw [e1, e2, hmW, clamp_some_width]
  unfold clampedWidth
  rw [hmW]
  dsimp only [minWithCap]
  rw [qmin_eq, qmin_eq, qmin_eq, qmin_eq, qmax_eq, qmax_eq, qmax_eq]
  exact width_fix_some (resolveMinWidth w) w.width mW c.width hmn

theorem clampedHeight_fix (w : WindowData) (c : CanvasSize)
    (hmn : 0 ≤ resolveMinHeight w) :
    clampedHeight (clampWindowToBounds w (some c)) c = clampedHeight w c := by
  obtain ⟨mH, hmH, -⟩ := resolveMaxHeight_le w c
  have e1 := resolveMinHeight_clamp w (some c)
  have e2 : resolveMaxHeight (clampWindowToBounds w (some c)) (some c) =
      resolveMaxHeight w (some c) := rfl
  unfold clampedHeight
  rw [e1, e2, hmH, clamp_some_height]
  unfold clampedHeight
  rw [hmH]
  dsimp only [minWithCap]
  rw [qmin_eq, qmin_eq, qmin_eq, qmin_eq, qmax_eq, qmax_eq, qmax_eq]
  exact width_fix_some (resolveMinHeight w) w.height mH c.height hmn

theorem clamp_windowStyle (w : WindowData) (cv : Option CanvasSize) :
    (clampWindowToBounds w cv).windowStyle = w.windowStyle := by
  cases cv <;> rfl

theorem clamp_none_width (w : WindowData) :
    (clampWindowToBounds w none).width =
      qmax (minWithCap (qmax (resolveMinWidth w) w.width)
        ((w.windowStyle.getD emptyWindowStyle).maxWidth)) 0 := by
  rw [clampWindowToBounds_none_eq]

theorem clamp_none_height (w : WindowData) :
    (clampWindowToBounds w none).height =
      qmax (minWithCap (qmax (resolveMinHeight w) w.height)
        ((w.windowStyle.getD emptyWindowStyle).maxHeight)) 0 := by
  rw [clampWindowToBounds_none_eq]

theorem clamp_none_x (w : WindowData) :
    (clampWindowToBounds w none).x = w.x := by
  rw [clampWindowToBounds_none_eq]

theorem clamp_none_y (w : WindowData) :
    (clampWindowToBounds w none).y = w.y := by
  rw [clampWindowToBounds_none_eq]

/-- C2, amended: `clampWindowToBounds` is idempotent for every canvas
(present or absent) provided the rectangle's resolved minimum width and
height are non-negative (always true without negative style overrides;
the defaults are 320x240).  With a negative minimum and maximum override
idempotence genuinely fails, see the counterexample. -/
theorem clampWindowToBounds_idempotent (w : WindowData)
    (canvas : Option CanvasSize) (hminW : 0 ≤ resolveMinWidth w)
    (hminH : 0 ≤ resolveMinHeight w) :
    clampWindowToBounds (clampWindowToBounds w canvas) canvas =
      clampWindowToBounds w canvas := by
  cases canvas with
  | none =>
    apply WindowData.ext
    · rfl
    · rw [clamp_none_x]
    · rw [clamp_none_y]
    · rw [clamp_none_width, resolveMinWidth_clamp, clamp_windowStyle,
        clamp_none_width w]
      exact width_fix_cap (resolveMinWidth w) w.width _ hminW
    · rw [clamp_none_height, resolveMinHeight_clamp, clamp_windowStyle,
        clamp_none_height w]
      exact width_fix_cap (resolveMinHeight w) w.height _ hminH
    · rfl
    · rfl
  | some c =>
    have hWfix := clampedWidth_fix w c hminW
    have hHfix := clampedHeight_fix w c hminH
    have hWle := clampedWidth_le_canvas w c
    have hHle := clampedHeight_le_canvas w c
    apply WindowData.ext
    · rfl
    · rw [clamp_some_x, hWfix, clamp_some_x w c]
      rw [qmin_eq, qmin_eq, qmax_eq, qmax_eq]
      exact x_fix w.x (clampedWidth w c) c.width (by linarith)
    · rw [clamp_some_y, hHfix, clamp_some_y w c]
      rw [qmin_eq, qmin_eq, qmax_eq, qmax_eq]
      exact x_fix w.y (clampedHeight w c) c.height (by linarith)
    · rw [clamp_some_width, hWfix, clamp_some_width w c]
    · rw [clamp_some_height, hHfix, clamp_some_height w c]
    · rfl
    · rfl

section RatKernelEval

attribute [local semireducible] Rat.add Rat.sub Rat.mul Rat.inv Rat.ofScientific

/-- C3, counterexample: a rectangle at `x = -50, y = -10` clamped without
a canvas keeps its negative position, refuting `x >= 0`/`y >= 0`. -/
theorem clampWindowToBounds_no_canvas_negative :
    (clampWindowToBounds (mkWindow "a" (-50) (-10) 100 100) none).x = -50 ∧
    ¬(0 ≤ (clampWindowToBounds (mkWindow "a" (-50) (-10) 100 100) none).x) := by
  constructor <;> decide

/-- C6: dragging `{x:100,y:100,w:300,h:300}` against sibling
`{x:420,y:100,w:300,h:300}` on a 1000x1000 canvas with
`distance=32, overlap=64` yields a candidate whose edges contain
`right`, whose window has `x = 120`, and whose distance is `20`. -/
theorem computeDragSnapTarget_scenario_gap20 :
    ∃ cand,
      computeDragSnapTarget dragActive [dragNeighbor] (some scenarioCanvas) none
        defaultSnapConfig = some cand ∧
      SnapEdge.right ∈ cand.edges ∧ cand.window.x = 120 ∧ cand.distance = 20 := by
  refine ⟨⟨"active", ["neighbor"], [SnapEdge.right, SnapEdge.bottom],
    ⟨"active", 120, 100, 320, 300, 0, none⟩, 20⟩, ?_, ?_, rfl, rfl⟩
  · decide
  · decide

/-- C7, counterexample: for the spec's resize scenario the code returns a
window of height `240`, not `220` — the aligned height `220` is pushed
back up to the default `minHeight` of `240` by `clampWindowToBounds`
(the repository's own test expects `WINDOW_STYLE_DEFAULTS.minHeight`). -/
theorem computeResizeSnapTarget_scenario_height240 :
    Option.map (fun c => c.window.height)
      (computeResizeSnapTarget resizeActive [resizeBelow] ResizeDirection.s
        (some scenarioCanvas) defaultSnapConfig) = some 240 ∧
    (240 : ℚ) ≠ 220 := by
  constructor <;> decide

/-- C7, amended: resizing `{x:100,y:100,w:200,h:200}` south against a
sibling directly below at `y = 320` with full x-overlap yields a
candidate with edges exactly `[bottom]` whose snapped height
`320 - 100 = 220` is then clamped up to the resolved default minimum
height `240` (and width up to the minimum `320`). -/
theorem computeResizeSnapTarget_scenario_south :
    ∃ cand,
      computeResizeSnapTarget resizeActive [resizeBelow] ResizeDirection.s
        (some scenarioCanvas) defaultSnapConfig = some cand ∧
      cand.edges = [SnapEdge.bottom] ∧ cand.window.height = 240 ∧
      cand.distance = 20 := by
  exact ⟨⟨"active", ["below"], [SnapEdge.bottom],
    ⟨"active", 100, 100, 320, 240, 0, none⟩, 20⟩, by decide, rfl, rfl, rfl⟩

/-- C8, counterexample: with an empty sibling list but a known canvas,
`computeDragHintTarget` does NOT return a null target and empty guides —
the synthetic canvas rectangle is an alignment target, so a window at the
canvas origin gets two guides and a non-null target. -/
theorem computeDragHintTarget_canvas_only :
    (computeDragHintTarget (mkWindow "a" 0 0 320 240) [] (some scenarioCanvas)
      ⟨6, some 6⟩).guides.length = 2 ∧
    (computeDragHintTarget (mkWindow "a" 0 0 320 240) [] (some scenarioCanvas)
      ⟨6, some 6⟩).target.isSome = true := by
  constructor <;> decide

/-- Witness for C5: with no siblings (fresh result `none`) and a sticky
target 5px away (within the default distance 32), the sticky value is
returned unchanged. -/
theorem computeDragSnapTarget_stickiness_witness :
    computeDragSnapTarget stickyActive [] none (some stickyFixture)
      defaultSnapConfig = some stickyFixture :=
  (computeDragSnapTarget_stickiness stickyActive [] none defaultSnapConfig
    stickyFixture).1 (by decide) (by decide) (by decide)

/-- C10: hint candidate generation applies no cross-axis gate.  A
horizontal hint candidate (with its guide) exists iff one of the five
horizontal alignment distances (left/left, left/right, right/left,
right/right, centerX/centerX) is within the threshold — a condition on
x/width alone, independent of any vertical overlap or gap; symmetrically
for vertical candidates.  By contrast, for a concrete pair with a
vertical gap of 500 (overlap -500, failing `withinSnapThreshold` with
the defaults), the snap resolver produces nothing while the hint builder
still yields a horizontal candidate. -/
theorem buildHintAxisCandidates_no_cross_gate (active target : WindowData)
    (canvas : Option CanvasSize) (lim : ℚ) :
    ((buildHintAxisCandidates active target canvas lim).1.isSome = true ↔
      (qabs (active.x - target.x) ≤ lim ∨
       qabs (active.x - (target.x + target.width)) ≤ lim ∨
       qabs (active.x + active.width - target.x) ≤ lim ∨
       qabs (active.x + active.width - (target.x + target.width)) ≤ lim ∨
       qabs ((active.x + (active.x + active.width)) / 2 -
         (target.x + (target.x + target.width)) / 2) ≤ lim)) ∧
    ((buildHintAxisCandidates active target canvas lim).2.isSome = true ↔
      (qabs (active.y - target.y) ≤ lim ∨
       qabs (active.y - (target.y + target.height)) ≤ lim ∨
       qabs (active.y + active.height - target.y) ≤ lim ∨
       qabs (active.y + active.height - (target.y + target.height)) ≤ lim ∨
       qabs ((active.y + (active.y + active.height)) / 2 -
         (target.y + (target.y + target.height)) / 2) ≤ lim)) ∧
    ((buildHintAxisCandidates hintFarActive hintFarTarget none 6).1.isSome = true ∧
      computeDragSnapTarget hintFarActive [hintFarTarget] none none
        defaultSnapConfig = none ∧
      computeOverlap 0 100 600 700 = -500 ∧ computeGap 0 100 600 700 = 500 ∧
      withinSnapThreshold (-500) 500 64 32 = false) :=
  ⟨buildHint_horizontal_isSome_iff active target canvas lim,
   buildHint_vertical_isSome_iff active target canvas lim,
   by decide, by decide, by decide, by decide, by decide⟩

/-- C9, counterexample: the claim quantifies over any non-null result,
but a supplied sticky target is returned verbatim, so its targetIds need
not name any rectangle in `others` — here a sticky carrying the id
"ghost" is returned although `others` is empty. -/
theorem computeDragSnapTarget_sticky_foreign_target :
    computeDragSnapTarget (mkWindow "a" 55 55 320 240) [] none
      (some ⟨"a", ["ghost"], [SnapEdge.left], mkWindow "a" 50 50 320 240, 5⟩)
      defaultSnapConfig =
      some ⟨"a", ["ghost"], [SnapEdge.left], mkWindow "a" 50 50 320 240, 5⟩ ∧
    "ghost" ∈ (⟨"a", ["ghost"], [SnapEdge.left], mkWindow "a" 50 50 320 240,
      5⟩ : SnapCandidate).targetIds ∧
    ∀ o ∈ ([] : List WindowData), o.id ≠ "ghost" := by
  refine ⟨by decide, by decide, by simp⟩

/-- C9, amended: for the freshly computed result (no sticky carry-over),
every targetId of a non-null `computeDragSnapTarget` result is the id of
some rectangle in `others` — the canvas is never an alignment target for
snapping and affects the result only through clamping; a caller-supplied
stickyTo is returned verbatim with whatever targetIds it carries.  The
hint resolver, in contrast, adds the synthetic canvas rectangle
(`canvasToWindow`, id "__canvas__") to its target list, so for a window
at the canvas origin its result aligns to the canvas edges and lists
"__canvas__" as a target. -/
theorem computeDragSnapTarget_no_canvas_target :
    (∀ (active : WindowData) (others : List WindowData)
      (canvas : Option CanvasSize) (config : SnapConfig)
      (cand : SnapCandidate),
      computeDragSnapTarget active others canvas none config = some cand →
      ∀ tid ∈ cand.targetIds, ∃ o ∈ others, o.id = tid) ∧
    (∃ t, (computeDragHintTarget (mkWindow "a" 0 0 320 240) []
        (some scenarioCanvas) ⟨6, some 6⟩).target = some t ∧
      t.targetIds = ["__canvas__"] ∧ SnapEdge.left ∈ t.edges) := by
  constructor
  · exact computeDragSnapTarget_fresh_targetIds
  · exact ⟨⟨"a", ["__canvas__"], [SnapEdge.left, SnapEdge.top],
      ⟨"a", 0, 0, 320, 240, 0, none⟩, 0⟩, by decide, by decide, by decide⟩

/-- Witness for C9: the fresh scenario result's single targetId
"neighbor" is indeed the id of a supplied sibling. -/
theorem computeDragSnapTarget_no_canvas_target_witness :
    ∃ o ∈ [dragNeighbor], o.id = "neighbor" :=
  computeDragSnapTarget_no_canvas_target.1 dragActive [dragNeighbor]
    (some scenarioCanvas) defaultSnapConfig
    ⟨"active", ["neighbor"], [SnapEdge.right, SnapEdge.bottom],
      ⟨"active", 120, 100, 320, 300, 0, none⟩, 20⟩
    (by decide) "neighbor" (by decide)

/-- C1, counterexample: a rectangle with a negative `maxWidth` override
(-10) on a 1000x1000 canvas satisfies the claim's hypotheses (resolved
minima 320/240 are at most the canvas extents) yet ends at
`x + width = 1010 > 1000`: the width collapses to 0 while `maxX`
overshoots the canvas. -/
theorem clampWindowToBounds_containment_cex :
    resolveMinWidth ⟨"a", 2000, 0, 100, 100, 0,
        some ⟨none, none, some (-10), none⟩⟩ ≤ (1000:ℚ) ∧
    resolveMinHeight ⟨"a", 2000, 0, 100, 100, 0,
        some ⟨none, none, some (-10), none⟩⟩ ≤ (1000:ℚ) ∧
    ¬((clampWindowToBounds ⟨"a", 2000, 0, 100, 100, 0,
          some ⟨none, none, some (-10), none⟩⟩ (some ⟨1000, 1000⟩)).x +
        (clampWindowToBounds ⟨"a", 2000, 0, 100, 100, 0,
          some ⟨none, none, some (-10), none⟩⟩ (some ⟨1000, 1000⟩)).width ≤
        1000) :=
  ⟨by decide, by decide, by decide⟩

/-- Witness for C1: the repository test's rectangle at (700,700) sized
400x300 on a 1000x1000 canvas is clamped inside the canvas. -/
theorem clampWindowToBounds_containment_witness :
    0 ≤ (clampWindowToBounds (mkWindow "w" 700 700 400 300)
      (some ⟨1000, 1000⟩)).x ∧
    0 ≤ (clampWindowToBounds (mkWindow "w" 700 700 400 300)
      (some ⟨1000, 1000⟩)).y ∧
    (clampWindowToBounds (mkWindow "w" 700 700 400 300) (some ⟨1000, 1000⟩)).x +
      (clampWindowToBounds (mkWindow "w" 700 700 400 300)
        (some ⟨1000, 1000⟩)).width ≤ (1000:ℚ) ∧
    (clampWindowToBounds (mkWindow "w" 700 700 400 300) (some ⟨1000, 1000⟩)).y +
      (clampWindowToBounds (mkWindow "w" 700 700 400 300)
        (some ⟨1000, 1000⟩)).height ≤ (1000:ℚ) :=
  clampWindowToBounds_containment (mkWindow "w" 700 700 400 300) ⟨1000, 1000⟩
    (by decide) (by decide) (by decide) (by decide)
    (by intro m hm; simp [mkWindow, emptyWindowStyle] at hm)
    (by intro m hm; simp [mkWindow, emptyWindowStyle] at hm)

/-- C2, counterexample: with style overrides `minWidth = -5`,
`maxWidth = -3` on a 100x100 canvas, a rectangle at `x = 2000` of width
-10 clamps to `x = 105`, but clamping again moves it to `x = 103`:
`clampWindowToBounds` is not idempotent for all rectangles. -/
theorem clampWindowToBounds_not_idempotent :
    clampWindowToBounds
        (clampWindowToBounds ⟨"a", 2000, 0, -10, 100, 0,
          some ⟨some (-5), none, some (-3), none⟩⟩ (some ⟨100, 100⟩))
        (some ⟨100, 100⟩) ≠
      clampWindowToBounds ⟨"a", 2000, 0, -10, 100, 0,
        some ⟨some (-5), none, some (-3), none⟩⟩ (some ⟨100, 100⟩) := by
  decide

/-- Witness for C2: re-clamping the already-clamped test rectangle (no
style overrides, so the resolved minima are the non-negative defaults)
changes nothing. -/
theorem clampWindowToBounds_idempotent_witness :
    clampWindowToBounds
        (clampWindowToBounds (mkWindow "w" (-50) (-10) 100 100) none) none =
      clampWindowToBounds (mkWindow "w" (-50) (-10) 100 100) none :=
  clampWindowToBounds_idempotent (mkWindow "w" (-50) (-10) 100 100) none
    (by decide) (by decide)

end RatKernelEval

end WindowKit
